import Mathlib

/-!
Shallow embedding of the book-store REST backend
(`src/backend/src/schema/book.schema.ts`, `src/backend/src/services/book.service.ts`,
`src/backend/src/routes/book.routes.ts` and the controller contained in
`book.schema.ts`), together with proofs settling the frozen claims about its
natural-language specification.

Conventions of the embedding:
* strings are Lean `String`s; the JavaScript string operations used by the code
  (`trim`, case folding, `length`) are modelled on the character list of the
  string, over the ASCII fragment exercised by the repository;
* timestamps are `Nat` values handed to each operation as an explicit `now`
  parameter (the store assigns `createdAt`/`updatedAt` from the clock);
* the document database is modelled as an explicit `DB` state: a list of stored
  documents plus a connected flag (the spec treats the store as an opaque
  external collaborator; `connected = false` models store unavailability, whose
  operations fail with an unanticipated error);
* fallible service calls return `Except SvcError`; the mongoose duplicate-key
  error code 11000 becomes `SvcError.duplicateKey`, a mongoose `ValidationError`
  becomes `SvcError.validation` carrying the violated paths, and every other
  thrown error (cast error on a malformed id, store unavailability)
  becomes `SvcError.unexpected`.
-/

namespace Bookstore

/-- Decidable equality for `Except`, so that witnesses can evaluate service
results on concrete inputs. -/
instance {ε α : Type} [DecidableEq ε] [DecidableEq α] : DecidableEq (Except ε α) :=
  fun x y =>
    match x, y with
    | .ok a, .ok b =>
      if h : a = b then .isTrue (by rw [h])
      else .isFalse (by intro hc; injection hc; exact h (by assumption))
    | .error a, .error b =>
      if h : a = b then .isTrue (by rw [h])
      else .isFalse (by intro hc; injection hc; exact h (by assumption))
    | .ok _, .error _ => .isFalse (by intro hc; exact Except.noConfusion hc)
    | .error _, .ok _ => .isFalse (by intro hc; exact Except.noConfusion hc)

/-- Whitespace recognizer for the ASCII fragment of JS `String.prototype.trim`. -/
def isWS (c : Char) : Bool := c = ' ' || c = '\t' || c = '\n' || c = '\r'

/-- Trim on character lists: drop leading and trailing whitespace.
Models the mongoose `trim: true` setter (JS `String.prototype.trim`). -/
def trimL (s : List Char) : List Char :=
  ((s.dropWhile isWS).reverse.dropWhile isWS).reverse

/-- Trim on strings. -/
def trimS (s : String) : String := String.mk (trimL s.toList)

/-- ASCII lower-casing of one character, modelling the `i` regex option and
JS case-insensitive comparison on the ASCII fragment. -/
def lowerC (c : Char) : Char :=
  if 'A' ≤ c ∧ c ≤ 'Z' then Char.ofNat (c.toNat + 32) else c

/-! ## Entity schema — `book.schema.ts`, `BookSchema` -/

/-- The fixed 11-value genre enumeration of `BookSchema.genre.enum`. -/
def genreValues : List String :=
  ["Fiction", "Non-Fiction", "Science", "Technology", "Biography", "History",
   "Fantasy", "Mystery", "Romance", "Thriller", "Other"]

/-- The isbn validator of `BookSchema`: the regex
`^(?:\d{10}|\d{13})$` tested on the value with every hyphen removed
(`v.replace` of the global hyphen pattern by the empty string), i.e. after
removing hyphens the string is digits only, exactly 10 or 13 of them. -/
def isbnFormatOk (v : List Char) : Bool :=
  let d := v.filter (fun c => c ≠ '-')
  d.all Char.isDigit && (d.length = 10 || d.length = 13)

/-- A candidate record as submitted to create: every schema path optional
(absent = not supplied in the JSON body). -/
structure BookInput where
  title : Option String := none
  author : Option String := none
  isbn : Option String := none
  publishedYear : Option Int := none
  genre : Option String := none
  price : Option ℚ := none
  inStock : Option Bool := none
deriving DecidableEq

/-- `title` path validation: `required`, `trim`, `minlength 1`, `maxlength 200`.
(Mongoose `required` on a String path also rejects the empty string.)
Returns the violated path names contributed by this path. -/
def titleErrs (i : BookInput) : List String :=
  match i.title with
  | none => ["title"]
  | some s =>
    let t := trimL s.toList
    if t.length = 0 then ["title"]
    else if 200 < t.length then ["title"]
    else []

/-- `author` path validation: `required`, `trim`, `minlength 2`. -/
def authorErrs (i : BookInput) : List String :=
  match i.author with
  | none => ["author"]
  | some s =>
    let t := trimL s.toList
    if t.length < 2 then ["author"]
    else []

/-- `isbn` path validation: `required`, `trim`, custom validator `isbnFormatOk`.
(The uniqueness constraint is enforced by the store index, not here.) -/
def isbnErrs (i : BookInput) : List String :=
  match i.isbn with
  | none => ["isbn"]
  | some s =>
    let t := trimL s.toList
    if t.length = 0 then ["isbn"]
    else if ¬ isbnFormatOk t then ["isbn"]
    else []

/-- `publishedYear` path validation: `required`, `min 1000`,
`max (new Date()).getFullYear()`; the current calendar year is the
`currentYear` parameter of the embedding. -/
def yearErrs (currentYear : Int) (i : BookInput) : List String :=
  match i.publishedYear with
  | none => ["publishedYear"]
  | some yr =>
    if yr < 1000 then ["publishedYear"]
    else if currentYear < yr then ["publishedYear"]
    else []

/-- `genre` path validation: `required`, `trim`, membership in `genreValues`. -/
def genreErrs (i : BookInput) : List String :=
  match i.genre with
  | none => ["genre"]
  | some s =>
    if trimS s ∈ genreValues then [] else ["genre"]

/-- `price` path validation: `required`, `min 0`. -/
def priceErrs (i : BookInput) : List String :=
  match i.price with
  | none => ["price"]
  | some p => if p < 0 then ["price"] else []

/-- Full document validation run by mongoose before any write
(`new BookModel(data)` + `save()`): per-path validation in schema declaration
order; the result is the list of violated path names carried by the
`ValidationError` (empty = valid; `inStock` has no validator). -/
def validateBook (currentYear : Int) (i : BookInput) : List String :=
  titleErrs i ++ authorErrs i ++ isbnErrs i ++ yearErrs currentYear i ++
    genreErrs i ++ priceErrs i

/-- A stored book document: schema paths plus the store-assigned `_id` and the
`timestamps: true` pair `createdAt`/`updatedAt`. -/
structure Book where
  id : String
  title : String
  author : String
  isbn : String
  publishedYear : Int
  genre : String
  price : ℚ
  inStock : Bool
  createdAt : Nat
  updatedAt : Nat
deriving DecidableEq

/-- Document built by a successful `save()`: trimmed string paths, the
`inStock` default `true` when absent, store-assigned id and both timestamps
set to the creation instant. (The `getD` fallbacks are unreachable on inputs
that passed validation.) -/
def buildBook (id : String) (now : Nat) (i : BookInput) : Book :=
  { id := id
    title := trimS (i.title.getD "")
    author := trimS (i.author.getD "")
    isbn := trimS (i.isbn.getD "")
    publishedYear := i.publishedYear.getD 0
    genre := trimS (i.genre.getD "")
    price := i.price.getD 0
    inStock := i.inStock.getD true
    createdAt := now
    updatedAt := now }

/-! ## Service layer — `book.service.ts`, `BookService` -/

/-- Domain errors after the service's catch blocks: a mongoose
`ValidationError` (violated paths), the duplicate-key error `code === 11000`,
and anything else (cast error on a malformed id, store unavailability). -/
inductive SvcError where
  | validation (fields : List String)
  | duplicateKey
  | unexpected
deriving DecidableEq

/-- The document store: stored documents in insertion order, a sequence
counter for id assignment, and a connected flag (the process keeps serving
when the store connection failed; operations then throw). -/
structure DB where
  connected : Bool
  docs : List Book
  seq : Nat
deriving DecidableEq

/-- Hexadecimal digit characters, used by MongoDB ObjectId strings. -/
def hexDigitChar (n : Nat) : Char :=
  if n < 10 then Char.ofNat ('0'.toNat + n) else Char.ofNat ('a'.toNat + (n - 10))

/-- Store-assigned ObjectId for the `n`-th insertion: 24 hex characters. -/
def objectIdOf (n : Nat) : String :=
  String.mk ((List.range 24).map (fun i => hexDigitChar (n / 16 ^ (23 - i) % 16)))

/-- Structural validity of an id string: 24 hexadecimal characters
(`mongoose.Types.ObjectId` casting; anything else throws a `CastError`). -/
def validObjectId (s : String) : Bool :=
  s.toList.length = 24 &&
    s.toList.all (fun c => c.isDigit || ('a' ≤ c && c ≤ 'f') || ('A' ≤ c && c ≤ 'F'))

/-- The comparison behind `.sort({ createdAt: -1 })`: `a` comes no later than
`b` when `a` was created no earlier than `b`. -/
def newerEq (a b : Book) : Prop := b.createdAt ≤ a.createdAt

instance : DecidableRel newerEq := fun a b => Nat.decLe b.createdAt a.createdAt

instance : IsTotal Book newerEq := ⟨fun a b => Nat.le_total b.createdAt a.createdAt⟩

instance : IsTrans Book newerEq := ⟨fun _ _ _ hab hbc => le_trans hbc hab⟩

/-- `.sort({ createdAt: -1 })`: stored documents ordered newest-created
first. -/
def sortNewest (l : List Book) : List Book :=
  l.insertionSort newerEq

/-- `BookService.createBook`: `new BookModel(bookData)` + `save()`.
Mongoose runs document validation client-side first; then the write reaches
the store (unavailable store: the save fails with a non-11000 error); a
unique-index violation on `isbn` surfaces as error code 11000. -/
def createBook (currentYear : Int) (db : DB) (now : Nat) (i : BookInput) :
    Except SvcError Book × DB :=
  let fs := validateBook currentYear i
  if fs ≠ [] then (.error (.validation fs), db)
  else if ¬ db.connected then (.error .unexpected, db)
  else if db.docs.any (fun b => b.isbn = trimS (i.isbn.getD "")) then
    (.error .duplicateKey, db)
  else
    let b := buildBook (objectIdOf db.seq) now i
    (.ok b, { db with docs := db.docs ++ [b], seq := db.seq + 1 })

/-- `BookService.getAllBooks`: `find().sort({ createdAt: -1 })`. -/
def getAllBooks (db : DB) : Except SvcError (List Book) :=
  if ¬ db.connected then .error .unexpected
  else .ok (sortNewest db.docs)

/-- `BookService.getBookById`: `findById(id)`. A structurally invalid id makes
the query throw a `CastError` (client side, before the store is reached);
otherwise the result is the document or `null`. -/
def getBookById (db : DB) (id : String) : Except SvcError (Option Book) :=
  if ¬ validObjectId id then .error .unexpected
  else if ¬ db.connected then .error .unexpected
  else .ok (db.docs.find? (fun b => b.id = id))

/-- The update body reaching `findByIdAndUpdate`'s `$set` after the controller
stripped the immutable fields: only schema paths, each optional. -/
structure UpdateBody where
  title : Option String := none
  author : Option String := none
  isbn : Option String := none
  publishedYear : Option Int := none
  genre : Option String := none
  price : Option ℚ := none
  inStock : Option Bool := none
deriving DecidableEq

/-- `runValidators: true` on `$set`: path validators run on the supplied paths
only (an absent path is not validated; `required` does not fire for absent
paths on updates). -/
def validateUpdate (currentYear : Int) (u : UpdateBody) : List String :=
  (match u.title with
   | none => []
   | some s =>
     let t := trimL s.toList
     if t.length = 0 then ["title"]
     else if 200 < t.length then ["title"]
     else []) ++
  (match u.author with
   | none => []
   | some s => if (trimL s.toList).length < 2 then ["author"] else []) ++
  (match u.isbn with
   | none => []
   | some s => if ¬ isbnFormatOk (trimL s.toList) then ["isbn"] else []) ++
  (match u.publishedYear with
   | none => []
   | some yr =>
     if yr < 1000 then ["publishedYear"]
     else if currentYear < yr then ["publishedYear"]
     else []) ++
  (match u.genre with
   | none => []
   | some s => if trimS s ∈ genreValues then [] else ["genre"]) ++
  (match u.price with
   | none => []
   | some p => if p < 0 then ["price"] else [])

/-- `$set` application plus the `timestamps: true` refresh of `updatedAt`:
supplied paths replace the stored ones (string setters trim), everything else
is kept, `updatedAt` becomes the update instant. -/
def applyUpdate (d : Book) (now : Nat) (u : UpdateBody) : Book :=
  { d with
    title := (u.title.map trimS).getD d.title
    author := (u.author.map trimS).getD d.author
    isbn := (u.isbn.map trimS).getD d.isbn
    publishedYear := u.publishedYear.getD d.publishedYear
    genre := (u.genre.map trimS).getD d.genre
    price := u.price.getD d.price
    inStock := u.inStock.getD d.inStock
    updatedAt := now }

/-- Unique-index violation on an isbn change: another stored document already
holds the new (trimmed) isbn value. -/
def isbnConflict (db : DB) (id : String) (u : UpdateBody) : Bool :=
  match u.isbn with
  | none => false
  | some s => db.docs.any (fun b => b.id ≠ id && b.isbn = trimS s)

/-- `BookService.updateBook`: `findByIdAndUpdate(id, { $set }, { new: true,
runValidators: true })`. Cast of the id and update validation happen client
side; the write then reaches the store; `null` when no document has the id. -/
def updateBook (currentYear : Int) (db : DB) (now : Nat) (id : String)
    (u : UpdateBody) : Except SvcError (Option Book) × DB :=
  if ¬ validObjectId id then (.error .unexpected, db)
  else if validateUpdate currentYear u ≠ [] then
    (.error (.validation (validateUpdate currentYear u)), db)
  else if ¬ db.connected then (.error .unexpected, db)
  else
    match db.docs.find? (fun b => b.id = id) with
    | none => (.ok none, db)
    | some d =>
      if isbnConflict db id u then (.error .duplicateKey, db)
      else
        let d' := applyUpdate d now u
        (.ok (some d'),
         { db with docs := db.docs.map (fun b => if b.id = id then d' else b) })

/-- `BookService.deleteBook`: `findByIdAndDelete(id)`; returns the removed
document, or `null` when no document has the id. -/
def deleteBook (db : DB) (id : String) : Except SvcError (Option Book) × DB :=
  if ¬ validObjectId id then (.error .unexpected, db)
  else if ¬ db.connected then (.error .unexpected, db)
  else
    match db.docs.find? (fun b => b.id = id) with
    | none => (.ok none, db)
    | some d => (.ok (some d), { db with docs := db.docs.eraseP (fun b => b.id = id) })

/-- One pattern character against one text character: `.` matches any
character, anything else matches itself up to the case folding of the `i`
option. Models the fragment of MongoDB `$regex` syntax exercised here
(literal characters and the `.` metacharacter). -/
def charMatch (p c : Char) : Bool := p = '.' || lowerC p = lowerC c

/-- The pattern matches a prefix of the text. -/
def matchHere : List Char → List Char → Bool
  | [], _ => true
  | _ :: _, [] => false
  | p :: ps, c :: cs => charMatch p c && matchHere ps cs

/-- Unanchored regex containment: the pattern matches at some position. -/
def regexFind (pat : List Char) : List Char → Bool
  | [] => matchHere pat []
  | c :: cs => matchHere pat (c :: cs) || regexFind pat cs

/-- `{ $regex: query, $options: 'i' }` on one field: the query string is used
as an (unescaped) regex pattern, case-insensitively. -/
def regexTest (pat s : String) : Bool :=
  regexFind pat.toList s.toList

/-- `BookService.searchBooks`: `find({ $or: [{ title: { $regex: query,
$options: 'i' } }, { author: ... }] }).sort({ createdAt: -1 })`. The raw query
string is handed to `$regex` without escaping. -/
def searchBooks (db : DB) (query : String) : Except SvcError (List Book) :=
  if ¬ db.connected then .error .unexpected
  else .ok (sortNewest (db.docs.filter
    (fun b => regexTest query b.title || regexTest query b.author)))

/-- `BookService.getBooksByGenre`: `find({ genre }).sort({ createdAt: -1 })` —
exact equality on the stored `genre` string. -/
def getBooksByGenre (db : DB) (genre : String) : Except SvcError (List Book) :=
  if ¬ db.connected then .error .unexpected
  else .ok (sortNewest (db.docs.filter (fun b => b.genre = genre)))

/-- `BookService.getInStockBooks`: `find({ inStock: true }).sort({ createdAt:
-1 })`. -/
def getInStockBooks (db : DB) : Except SvcError (List Book) :=
  if ¬ db.connected then .error .unexpected
  else .ok (sortNewest (db.docs.filter (fun b => b.inStock = true)))

/-! ## Controller layer — `BookController` (second part of `book.schema.ts`) -/

/-- Response payload: a single document or a materialized list. -/
inductive Payload where
  | one (b : Book)
  | many (bs : List Book)
deriving DecidableEq

/-- The uniform response envelope `{ success, message, data?, count?,
error? }` together with the HTTP status the handler sets. -/
structure Resp where
  status : Nat
  success : Bool
  message : String
  data : Option Payload := none
  count : Option Nat := none
  error : Option String := none
deriving DecidableEq

/-- JS falsiness of an optional string parameter: absent or empty. -/
def falsyStr : Option String → Bool
  | none => true
  | some s => s = ""

/-- The `error.message` the controller echoes, as produced by the service's
catch blocks: the duplicate-key branch throws exactly
`'A book with this ISBN already exists'`; the other branches wrap the
underlying message behind a `Failed to <op>:` prefix (detail text modelled). -/
def svcMsg (op : String) : SvcError → String
  | .duplicateKey => "A book with this ISBN already exists"
  | .validation fields =>
      "Failed to " ++ op ++ ": Book validation failed: " ++ String.intercalate ", " fields
  | .unexpected => "Failed to " ++ op ++ ": store operation failed"

/-- `BookController.createBook`: reject with 400 when `title`, `author` or
`isbn` is falsy in the body; 201 with the stored document on success; the
catch block maps EVERY thrown error to 400 with the error's message. -/
def handleCreate (currentYear : Int) (db : DB) (now : Nat) (i : BookInput) :
    Resp × DB :=
  if falsyStr i.title || falsyStr i.author || falsyStr i.isbn then
    ({ status := 400, success := false,
       message := "Missing required fields: title, author, and isbn are required" }, db)
  else
    match createBook currentYear db now i with
    | (.ok b, db') =>
      ({ status := 201, success := true, message := "Book created successfully",
         data := some (.one b) }, db')
    | (.error e, db') =>
      ({ status := 400, success := false, message := svcMsg "create book" e,
         error := some (svcMsg "create book" e) }, db')

/-- `BookController.getAllBooks`: 200 with count and list; catch block 500. -/
def handleGetAll (db : DB) : Resp :=
  match getAllBooks db with
  | .ok bs =>
    { status := 200, success := true, message := "Books retrieved successfully",
      count := some bs.length, data := some (.many bs) }
  | .error e =>
    { status := 500, success := false, message := "Failed to retrieve books",
      error := some (svcMsg "fetch books" e) }

/-- `BookController.getBookById`: 400 on a falsy id parameter, 404 when the
service returns `null`, 200 with the document, catch block 500. -/
def handleGetById (db : DB) (id : String) : Resp :=
  if id = "" then
    { status := 400, success := false, message := "Book ID is required" }
  else
    match getBookById db id with
    | .error e =>
      { status := 500, success := false, message := "Failed to retrieve book",
        error := some (svcMsg "fetch book" e) }
    | .ok none => { status := 404, success := false, message := "Book not found" }
    | .ok (some b) =>
      { status := 200, success := true, message := "Book retrieved successfully",
        data := some (.one b) }

/-- A raw PUT body as received by `BookController.updateBook`: schema paths
plus the client-settable attempts at the immutable fields (`_id`, the `id`
virtual, `createdAt`, `updatedAt`). -/
structure RawUpdate where
  rawId : Option String := none
  rawUnderscoreId : Option String := none
  rawCreatedAt : Option Nat := none
  rawUpdatedAt : Option Nat := none
  title : Option String := none
  author : Option String := none
  isbn : Option String := none
  publishedYear : Option Int := none
  genre : Option String := none
  price : Option ℚ := none
  inStock : Option Bool := none
deriving DecidableEq

/-- The controller's field stripping (`delete updateData._id; delete
updateData.createdAt; delete updateData.updatedAt`) followed by mongoose
strict mode dropping the non-schema `id` key: only schema paths survive. -/
def stripImmutable (r : RawUpdate) : UpdateBody :=
  { title := r.title, author := r.author, isbn := r.isbn,
    publishedYear := r.publishedYear, genre := r.genre, price := r.price,
    inStock := r.inStock }

/-- `BookController.updateBook`: 400 on a falsy id, strips the immutable
fields, 404 when the service returns `null`, 200 with the updated document;
the catch block maps EVERY thrown error to 400. -/
def handleUpdate (currentYear : Int) (db : DB) (now : Nat) (id : String)
    (r : RawUpdate) : Resp × DB :=
  if id = "" then
    ({ status := 400, success := false, message := "Book ID is required" }, db)
  else
    match updateBook currentYear db now id (stripImmutable r) with
    | (.error e, db') =>
      ({ status := 400, success := false, message := "Failed to update book",
         error := some (svcMsg "update book" e) }, db')
    | (.ok none, db') =>
      ({ status := 404, success := false, message := "Book not found" }, db')
    | (.ok (some b), db') =>
      ({ status := 200, success := true, message := "Book updated successfully",
         data := some (.one b) }, db')

/-- `BookController.deleteBook`: 400 on a falsy id, 404 when the service
returns `null`, 200 with the removed document, catch block 500. -/
def handleDelete (db : DB) (id : String) : Resp × DB :=
  if id = "" then
    ({ status := 400, success := false, message := "Book ID is required" }, db)
  else
    match deleteBook db id with
    | (.error e, db') =>
      ({ status := 500, success := false, message := "Failed to delete book",
         error := some (svcMsg "delete book" e) }, db')
    | (.ok none, db') =>
      ({ status := 404, success := false, message := "Book not found" }, db')
    | (.ok (some b), db') =>
      ({ status := 200, success := true, message := "Book deleted successfully",
         data := some (.one b) }, db')

/-- `BookController.searchBooks`: 400 when the `q` query parameter is falsy,
200 with count and list, catch block 500. -/
def handleSearch (db : DB) (q : Option String) : Resp :=
  if falsyStr q then
    { status := 400, success := false, message := "Search query is required" }
  else
    match searchBooks db (q.getD "") with
    | .ok bs =>
      { status := 200, success := true, message := "Search completed successfully",
        count := some bs.length, data := some (.many bs) }
    | .error e =>
      { status := 500, success := false, message := "Failed to search books",
        error := some (svcMsg "search books" e) }

/-- `BookController.getBooksByGenre`: 400 when the genre parameter is falsy,
200 with count and list, catch block 500. -/
def handleGenre (db : DB) (genre : String) : Resp :=
  if genre = "" then
    { status := 400, success := false, message := "Genre is required" }
  else
    match getBooksByGenre db genre with
    | .ok bs =>
      { status := 200, success := true, message := "Books retrieved successfully",
        count := some bs.length, data := some (.many bs) }
    | .error e =>
      { status := 500, success := false,
        message := "Failed to retrieve books by genre",
        error := some (svcMsg "fetch books by genre" e) }

/-- `BookController.getInStockBooks`: 200 with count and list, catch block
500. -/
def handleInStock (db : DB) : Resp :=
  match getInStockBooks db with
  | .ok bs =>
    { status := 200, success := true,
      message := "In-stock books retrieved successfully",
      count := some bs.length, data := some (.many bs) }
  | .error e =>
    { status := 500, success := false,
      message := "Failed to retrieve in-stock books",
      error := some (svcMsg "fetch in-stock books" e) }

/-! ## Route table — `book.routes.ts`, `BookRoutes.initializeRoutes` -/

/-- HTTP methods used by the route table. -/
inductive Method where
  | GET | POST | PUT | DELETE
deriving DecidableEq

/-- One pattern segment: a literal, or a named `:param` placeholder. -/
inductive Seg where
  | lit (s : String)
  | param (name : String)
deriving DecidableEq

/-- Handler names bound by the route table. -/
inductive HandlerTag where
  | createBook | getAllBooks | searchBooks | getInStockBooks
  | getBooksByGenre | getBookById | updateBook | deleteBook
deriving DecidableEq

/-- The route registrations of `initializeRoutes`, in source order (the paths
are relative to the `/api/books` mount point; `[]` is the collection path). -/
def bookRoutes : List (Method × List Seg × HandlerTag) :=
  [(.POST, [], .createBook),
   (.GET, [], .getAllBooks),
   (.GET, [.lit "search"], .searchBooks),
   (.GET, [.lit "stock", .lit "available"], .getInStockBooks),
   (.GET, [.lit "genre", .param "genre"], .getBooksByGenre),
   (.GET, [.param "id"], .getBookById),
   (.PUT, [.param "id"], .updateBook),
   (.DELETE, [.param "id"], .deleteBook)]

/-- Express segment matching: a literal matches itself, `:param` matches any
non-empty segment. -/
def segMatches : Seg → String → Bool
  | .lit s, x => s = x
  | .param _, x => x ≠ ""

/-- A pattern matches a path when the segments match position-wise. -/
def pathMatches : List Seg → List String → Bool
  | [], [] => true
  | s :: ss, x :: xs => segMatches s x && pathMatches ss xs
  | _, _ => false

/-- Express dispatch: the first registered route whose method and pattern
match wins. -/
def dispatch (m : Method) (path : List String) : Option HandlerTag :=
  (bookRoutes.find? (fun r => r.1 = m && pathMatches r.2.1 path)).map (fun r => r.2.2)

/-! ## Spec-side predicates (the spec's words, for comparison with the code) -/

/-- The spec's search contract: `text` occurs in `s` as a case-insensitive
substring. -/
def ciSubstring (q s : String) : Prop :=
  (q.toList.map lowerC) <:+: (s.toList.map lowerC)

instance (q s : String) : Decidable (ciSubstring q s) := by
  unfold ciSubstring; infer_instance

/-- Spec §3 `title` constraint: present, 1–200 characters. -/
def titleOk (i : BookInput) : Bool :=
  match i.title with
  | none => false
  | some t => 1 ≤ (trimL t.toList).length && (trimL t.toList).length ≤ 200

/-- Spec §3 `author` constraint: present, at least 2 characters. -/
def authorOk (i : BookInput) : Bool :=
  match i.author with
  | none => false
  | some a => 2 ≤ (trimL a.toList).length

/-- Spec §3 `isbn` constraint: present, digits only after hyphen removal,
exactly 10 or 13 digits. -/
def isbnOk (i : BookInput) : Bool :=
  match i.isbn with
  | none => false
  | some s =>
    let d := (trimL s.toList).filter (fun c => c ≠ '-')
    d.all Char.isDigit && (d.length = 10 || d.length = 13)

/-- Spec §3 `publishedYear` constraint: present, between 1000 and the current
calendar year. -/
def yearOk (currentYear : Int) (i : BookInput) : Bool :=
  match i.publishedYear with
  | none => false
  | some yr => 1000 ≤ yr && yr ≤ currentYear

/-- Spec §3 `genre` constraint: present, one of the fixed 11-value set. -/
def genreOk (i : BookInput) : Bool :=
  match i.genre with
  | none => false
  | some g => trimS g ∈ genreValues

/-- Spec §3 `price` constraint: present, non-negative. -/
def priceOk (i : BookInput) : Bool :=
  match i.price with
  | none => false
  | some p => 0 ≤ p

/-- Spec §3, all constraints at once: every required field present and
satisfying its constraint. -/
def meetsSection3 (currentYear : Int) (i : BookInput) : Bool :=
  titleOk i && authorOk i && isbnOk i && yearOk currentYear i && genreOk i &&
    priceOk i

/-- The spec's list ordering: newest-created first. -/
def NewestFirst (l : List Book) : Prop :=
  l.Pairwise (fun a b => b.createdAt ≤ a.createdAt)

/-! ## Concrete fixtures used by witnesses and counterexamples -/

/-- An empty, connected store. -/
def db0 : DB := { connected := true, docs := [], seq := 0 }

/-- A store whose connection failed at startup (the process keeps serving). -/
def dbDown : DB := { connected := false, docs := [], seq := 0 }

/-- A stored document with a structurally valid ObjectId. -/
def bk1 : Book :=
  { id := "0123456789abcdef01234567", title := "The Hobbit", author := "Tolkien",
    isbn := "1234567890", publishedYear := 1937, genre := "Fantasy", price := 5,
    inStock := true, createdAt := 1, updatedAt := 1 }

/-- A connected store holding `bk1`. -/
def db1 : DB := { connected := true, docs := [bk1], seq := 1 }

/-- A fully valid candidate record (no `inStock`, exercising the default). -/
def goodInput : BookInput :=
  { title := some "Dune", author := some "Herbert", isbn := some "0441172717",
    publishedYear := some 1965, genre := some "Fiction", price := some 9 }

/-- A candidate record missing `author` (spec §8: create without author). -/
def inputNoAuthor : BookInput :=
  { title := some "Dune", author := none, isbn := some "0441172717",
    publishedYear := some 1965, genre := some "Fiction", price := some 9 }

/-- A candidate with all presence-checked fields present but an out-of-range
`publishedYear` (999), violating the section-3 year constraint. -/
def inputBadYear : BookInput :=
  { title := some "Dune", author := some "Herbert", isbn := some "0441172717",
    publishedYear := some 999, genre := some "Fiction", price := some 9 }

/-- A fully valid candidate whose isbn equals the stored `bk1.isbn`. -/
def dupInput : BookInput :=
  { title := some "Hobbit reprint", author := some "Tolkien",
    isbn := some "1234567890", publishedYear := some 1995,
    genre := some "Fantasy", price := some 7, inStock := some true }

/-- A stored document whose title is the three literal characters `abc`. -/
def bkAbc : Book :=
  { id := "00000000000000000000abcd", title := "abc", author := "xy",
    isbn := "9999999999", publishedYear := 2000, genre := "Fiction", price := 3,
    inStock := false, createdAt := 2, updatedAt := 2 }

/-- A connected store holding only `bkAbc`. -/
def dbAbc : DB := { connected := true, docs := [bkAbc], seq := 1 }

/-- A PUT body updating `price` and `inStock` that also tries to set the
immutable `createdAt`, `updatedAt` and `_id` (spec §8 update scenario). -/
def rawPriceStock : RawUpdate :=
  { rawUnderscoreId := some "ffffffffffffffffffffffff",
    rawCreatedAt := some 4242, rawUpdatedAt := some 4343,
    price := some 12, inStock := some false }

/-- The document expected after applying `rawPriceStock` to `bk1` at instant
9: only `price`, `inStock` and `updatedAt` change. -/
def bkUpdated : Book := { bk1 with price := 12, inStock := false, updatedAt := 9 }

/-! ## Helper lemmas -/

theorem titleErrs_eq_nil (i : BookInput) : titleErrs i = [] ↔ titleOk i = true := by
  cases h : i.title <;> simp only [titleErrs, titleOk, h]
  · simp
  · split_ifs with h1 h2
    · simp only [false_iff, Bool.and_eq_true, decide_eq_true_eq, not_and]
      omega
    · simp only [false_iff, Bool.and_eq_true, decide_eq_true_eq, not_and]
      omega
    · simp only [true_iff, Bool.and_eq_true, decide_eq_true_eq]
      omega

theorem titleErrs_shape (i : BookInput) :
    titleErrs i = [] ∨ titleErrs i = ["title"] := by
  cases h : i.title <;> simp only [titleErrs, h]
  · simp
  · split_ifs <;> simp

theorem mem_titleErrs (i : BookInput) (f : String) :
    f ∈ titleErrs i ↔ f = "title" ∧ titleOk i = false := by
  rcases titleErrs_shape i with h0 | h0 <;> rw [h0]
  · have hok : titleOk i = true := (titleErrs_eq_nil i).mp h0
    simp [hok]
  · have hok : titleOk i = false := by
      cases hb : titleOk i
      · rfl
      · rw [(titleErrs_eq_nil i).mpr hb] at h0
        exact absurd h0 (by simp)
    simp [hok]

theorem authorErrs_eq_nil (i : BookInput) : authorErrs i = [] ↔ authorOk i = true := by
  cases h : i.author <;> simp only [authorErrs, authorOk, h]
  · simp
  · split_ifs with h1
    · simp only [false_iff, decide_eq_true_eq]
      omega
    · simp only [true_iff, decide_eq_true_eq]
      omega

theorem authorErrs_shape (i : BookInput) :
    authorErrs i = [] ∨ authorErrs i = ["author"] := by
  cases h : i.author <;> simp only [authorErrs, h]
  · simp
  · split_ifs <;> simp

theorem mem_authorErrs (i : BookInput) (f : String) :
    f ∈ authorErrs i ↔ f = "author" ∧ authorOk i = false := by
  rcases authorErrs_shape i with h0 | h0 <;> rw [h0]
  · have hok : authorOk i = true := (authorErrs_eq_nil i).mp h0
    simp [hok]
  · have hok : authorOk i = false := by
      cases hb : authorOk i
      · rfl
      · rw [(authorErrs_eq_nil i).mpr hb] at h0
        exact absurd h0 (by simp)
    simp [hok]

theorem isbnErrs_eq_nil (i : BookInput) : isbnErrs i = [] ↔ isbnOk i = true := by
  cases h : i.isbn <;> simp only [isbnErrs, isbnOk, h]
  · simp
  · split_ifs with h1 h2
    · rw [List.length_eq_zero] at h1
      simp only [false_iff]
      rw [h1]
      simp
    · simp only [true_iff]
      exact h2
    · simp only [false_iff]
      exact fun hc => h2 hc

theorem isbnErrs_shape (i : BookInput) :
    isbnErrs i = [] ∨ isbnErrs i = ["isbn"] := by
  cases h : i.isbn <;> simp only [isbnErrs, h]
  · simp
  · split_ifs <;> simp

theorem mem_isbnErrs (i : BookInput) (f : String) :
    f ∈ isbnErrs i ↔ f = "isbn" ∧ isbnOk i = false := by
  rcases isbnErrs_shape i with h0 | h0 <;> rw [h0]
  · have hok : isbnOk i = true := (isbnErrs_eq_nil i).mp h0
    simp [hok]
  · have hok : isbnOk i = false := by
      cases hb : isbnOk i
      · rfl
      · rw [(isbnErrs_eq_nil i).mpr hb] at h0
        exact absurd h0 (by simp)
    simp [hok]

theorem yearErrs_eq_nil (y : Int) (i : BookInput) :
    yearErrs y i = [] ↔ yearOk y i = true := by
  cases h : i.publishedYear <;> simp only [yearErrs, yearOk, h]
  · simp
  · split_ifs with h1 h2
    · simp only [false_iff, Bool.and_eq_true, decide_eq_true_eq, not_and]
      omega
    · simp only [false_iff, Bool.and_eq_true, decide_eq_true_eq, not_and]
      omega
    · simp only [true_iff, Bool.and_eq_true, decide_eq_true_eq]
      omega

theorem yearErrs_shape (y : Int) (i : BookInput) :
    yearErrs y i = [] ∨ yearErrs y i = ["publishedYear"] := by
  cases h : i.publishedYear <;> simp only [yearErrs, h]
  · simp
  · split_ifs <;> simp

theorem mem_yearErrs (y : Int) (i : BookInput) (f : String) :
    f ∈ yearErrs y i ↔ f = "publishedYear" ∧ yearOk y i = false := by
  rcases yearErrs_shape y i with h0 | h0 <;> rw [h0]
  · have hok : yearOk y i = true := (yearErrs_eq_nil y i).mp h0
    simp [hok]
  · have hok : yearOk y i = false := by
      cases hb : yearOk y i
      · rfl
      · rw [(yearErrs_eq_nil y i).mpr hb] at h0
        exact absurd h0 (by simp)
    simp [hok]

theorem genreErrs_eq_nil (i : BookInput) : genreErrs i = [] ↔ genreOk i = true := by
  cases h : i.genre <;> simp only [genreErrs, genreOk, h]
  · simp
  · split_ifs with h1 <;> simp [h1]

theorem genreErrs_shape (i : BookInput) :
    genreErrs i = [] ∨ genreErrs i = ["genre"] := by
  cases h : i.genre <;> simp only [genreErrs, h]
  · simp
  · split_ifs <;> simp

theorem mem_genreErrs (i : BookInput) (f : String) :
    f ∈ genreErrs i ↔ f = "genre" ∧ genreOk i = false := by
  rcases genreErrs_shape i with h0 | h0 <;> rw [h0]
  · have hok : genreOk i = true := (genreErrs_eq_nil i).mp h0
    simp [hok]
  · have hok : genreOk i = false := by
      cases hb : genreOk i
      · rfl
      · rw [(genreErrs_eq_nil i).mpr hb] at h0
        exact absurd h0 (by simp)
    simp [hok]

theorem priceErrs_eq_nil (i : BookInput) : priceErrs i = [] ↔ priceOk i = true := by
  cases h : i.price <;> simp only [priceErrs, priceOk, h]
  · simp
  · split_ifs with h1
    · simp only [false_iff, decide_eq_true_eq]
      intro hc
      linarith
    · simp only [true_iff, decide_eq_true_eq]
      linarith

theorem priceErrs_shape (i : BookInput) :
    priceErrs i = [] ∨ priceErrs i = ["price"] := by
  cases h : i.price <;> simp only [priceErrs, h]
  · simp
  · split_ifs <;> simp

theorem mem_priceErrs (i : BookInput) (f : String) :
    f ∈ priceErrs i ↔ f = "price" ∧ priceOk i = false := by
  rcases priceErrs_shape i with h0 | h0 <;> rw [h0]
  · have hok : priceOk i = true := (priceErrs_eq_nil i).mp h0
    simp [hok]
  · have hok : priceOk i = false := by
      cases hb : priceOk i
      · rfl
      · rw [(priceErrs_eq_nil i).mpr hb] at h0
        exact absurd h0 (by simp)
    simp [hok]

theorem validateBook_eq_nil (y : Int) (i : BookInput) :
    validateBook y i = [] ↔ meetsSection3 y i = true := by
  simp only [validateBook, meetsSection3, List.append_eq_nil, Bool.and_eq_true,
    titleErrs_eq_nil, authorErrs_eq_nil, isbnErrs_eq_nil, yearErrs_eq_nil,
    genreErrs_eq_nil, priceErrs_eq_nil]

theorem mem_validateBook (y : Int) (i : BookInput) (f : String) :
    f ∈ validateBook y i ↔
      (f = "title" ∧ titleOk i = false) ∨ (f = "author" ∧ authorOk i = false) ∨
      (f = "isbn" ∧ isbnOk i = false) ∨ (f = "publishedYear" ∧ yearOk y i = false) ∨
      (f = "genre" ∧ genreOk i = false) ∨ (f = "price" ∧ priceOk i = false) := by
  simp only [validateBook, List.mem_append, mem_titleErrs, mem_authorErrs,
    mem_isbnErrs, mem_yearErrs, mem_genreErrs, mem_priceErrs]
  tauto

theorem trimL_nil : trimL [] = [] := rfl

theorem toList_empty : ("" : String).toList = [] := rfl

theorem titleOk_not_falsy (i : BookInput) (h : titleOk i = true) :
    falsyStr i.title = false := by
  cases ht : i.title <;> simp only [titleOk, ht] at h ⊢
  · exact absurd h (by simp)
  · rename_i s
    simp only [falsyStr, decide_eq_false_iff_not]
    rintro rfl
    rw [toList_empty, trimL_nil] at h
    simp at h

theorem authorOk_not_falsy (i : BookInput) (h : authorOk i = true) :
    falsyStr i.author = false := by
  cases ht : i.author <;> simp only [authorOk, ht] at h ⊢
  · exact absurd h (by simp)
  · rename_i s
    simp only [falsyStr, decide_eq_false_iff_not]
    rintro rfl
    rw [toList_empty, trimL_nil] at h
    simp at h

theorem isbnOk_not_falsy (i : BookInput) (h : isbnOk i = true) :
    falsyStr i.isbn = false := by
  cases ht : i.isbn <;> simp only [isbnOk, ht] at h ⊢
  · exact absurd h (by simp)
  · rename_i s
    simp only [falsyStr, decide_eq_false_iff_not]
    rintro rfl
    rw [toList_empty, trimL_nil] at h
    simp at h

theorem mem_sortNewest (l : List Book) (b : Book) : b ∈ sortNewest l ↔ b ∈ l :=
  (List.perm_insertionSort newerEq l).mem_iff

theorem newestFirst_sortNewest (l : List Book) : NewestFirst (sortNewest l) :=
  List.sorted_insertionSort newerEq l

theorem find?_eq_none_of_id_not_mem (l : List Book) (id : String)
    (h : id ∉ l.map Book.id) : l.find? (fun b => b.id = id) = none := by
  rw [List.find?_eq_none]
  intro x hx
  simp only [decide_eq_true_eq]
  intro hc
  exact h (hc ▸ List.mem_map_of_mem Book.id hx)

theorem find?_eraseP_eq_none (l : List Book) (id : String)
    (hnd : (l.map Book.id).Nodup) :
    (l.eraseP (fun b => b.id = id)).find? (fun b => b.id = id) = none := by
  induction l with
  | nil => rfl
  | cons d ds ih =>
    simp only [List.map_cons, List.nodup_cons] at hnd
    by_cases hd : d.id = id
    · rw [List.eraseP_cons_of_pos (by simp [hd])]
      exact find?_eq_none_of_id_not_mem ds id (hd ▸ hnd.1)
    · rw [List.eraseP_cons_of_neg (by simp [hd])]
      rw [List.find?_cons_of_neg _ (by simp [hd])]
      exact ih hnd.2

theorem charMatch_of_ne_dot {p c : Char} (hp : p ≠ '.') :
    charMatch p c = true ↔ lowerC p = lowerC c := by
  simp [charMatch, hp]

theorem matchHere_of_no_dot {pat : List Char} (hp : '.' ∉ pat) (text : List Char) :
    matchHere pat text = true ↔ (pat.map lowerC) <+: (text.map lowerC) := by
  induction pat generalizing text with
  | nil => simp [matchHere]
  | cons p ps ih =>
    simp only [List.mem_cons, not_or] at hp
    cases text with
    | nil =>
      simp only [matchHere, List.map_cons, List.map_nil, List.prefix_nil]
      simp
    | cons c cs =>
      have hpd : p ≠ '.' := fun hc => hp.1 hc.symm
      simp only [matchHere, List.map_cons, List.cons_prefix_cons,
        Bool.and_eq_true, charMatch_of_ne_dot hpd, ih hp.2]

theorem regexFind_of_no_dot {pat : List Char} (hp : '.' ∉ pat) (text : List Char) :
    regexFind pat text = true ↔ (pat.map lowerC) <:+: (text.map lowerC) := by
  induction text with
  | nil =>
    simp only [regexFind, List.map_nil, List.infix_nil, List.map_eq_nil_iff]
    rw [matchHere_of_no_dot hp]
    simp [List.prefix_nil]
  | cons c cs ih =>
    simp only [regexFind, List.map_cons, List.infix_cons_iff, Bool.or_eq_true, ih]
    rw [matchHere_of_no_dot hp]
    simp [List.map_cons]

theorem regexTest_of_no_dot {q : String} (hq : '.' ∉ q.toList) (s : String) :
    regexTest q s = true ↔ ciSubstring q s :=
  regexFind_of_no_dot hq s.toList

theorem validObjectId_ne_empty {id : String} (h : validObjectId id = true) :
    id ≠ "" := by
  intro hc
  subst hc
  exact absurd h (by decide)

/-- C9: route dispatch sends `GET search` and `GET stock/available` under the
collection path to the search and in-stock handlers, never to the generic
`:id` route, because the literal routes are registered first. -/
theorem routes_literal_before_id :
    dispatch .GET ["search"] = some .searchBooks ∧
    dispatch .GET ["stock", "available"] = some .getInStockBooks ∧
    dispatch .GET ["search"] ≠ some .getBookById := by decide

/-- C10: in every successful response of a list-returning endpoint (get all,
search, filter by genre, in-stock filter), the envelope's `count` field equals
the length of the `data` array. -/
theorem list_count_eq_data_length (db : DB) (q : Option String) (g : String) :
    ((handleGetAll db).success = true →
      ∃ bs, (handleGetAll db).data = some (.many bs) ∧
        (handleGetAll db).count = some bs.length) ∧
    ((handleSearch db q).success = true →
      ∃ bs, (handleSearch db q).data = some (.many bs) ∧
        (handleSearch db q).count = some bs.length) ∧
    ((handleGenre db g).success = true →
      ∃ bs, (handleGenre db g).data = some (.many bs) ∧
        (handleGenre db g).count = some bs.length) ∧
    ((handleInStock db).success = true →
      ∃ bs, (handleInStock db).data = some (.many bs) ∧
        (handleInStock db).count = some bs.length) := by
  refine ⟨?_, ?_, ?_, ?_⟩
  · cases hx : getAllBooks db with
    | ok bs => simp [handleGetAll, hx]
    | error e => simp [handleGetAll, hx]
  · simp only [handleSearch]
    split
    · simp
    · cases hx : searchBooks db (q.getD "") with
      | ok bs => simp [hx]
      | error e => simp [hx]
  · simp only [handleGenre]
    split
    · simp
    · cases hx : getBooksByGenre db g with
      | ok bs => simp [hx]
      | error e => simp [hx]
  · cases hx : getInStockBooks db with
    | ok bs => simp [handleInStock, hx]
    | error e => simp [handleInStock, hx]

theorem list_count_eq_data_length_witness :
    (handleGetAll db1).success = true ∧
    (∃ bs, (handleGetAll db1).data = some (.many bs) ∧
      (handleGetAll db1).count = some bs.length) ∧
    (∃ bs, (handleSearch db1 (some "Hobbit")).data = some (.many bs) ∧
      (handleSearch db1 (some "Hobbit")).count = some bs.length) ∧
    (∃ bs, (handleGenre db1 "Fantasy").data = some (.many bs) ∧
      (handleGenre db1 "Fantasy").count = some bs.length) ∧
    (∃ bs, (handleInStock db1).data = some (.many bs) ∧
      (handleInStock db1).count = some bs.length) :=
  ⟨by decide,
   (list_count_eq_data_length db1 (some "Hobbit") "Fantasy").1 (by decide),
   (list_count_eq_data_length db1 (some "Hobbit") "Fantasy").2.1 (by decide),
   (list_count_eq_data_length db1 (some "Hobbit") "Fantasy").2.2.1 (by decide),
   (list_count_eq_data_length db1 (some "Hobbit") "Fantasy").2.2.2 (by decide)⟩

/-- C8: `getBooksByGenre` is an exact, case-sensitive match: the result is
precisely the stored records whose `genre` equals the query string, newest
first; in particular a `fantasy` query never returns a record whose genre is
`Fantasy`. -/
theorem genre_exact_case_sensitive (db : DB) (g : String)
    (hcon : db.connected = true) :
    (∃ bs, getBooksByGenre db g = .ok bs ∧
      (∀ b, b ∈ bs ↔ b ∈ db.docs ∧ b.genre = g) ∧ NewestFirst bs) ∧
    (∀ bs2, getBooksByGenre db "fantasy" = .ok bs2 →
      ∀ b ∈ bs2, b.genre = "fantasy" ∧ b.genre ≠ "Fantasy") := by
  constructor
  · have hres : getBooksByGenre db g =
        .ok (sortNewest (db.docs.filter (fun b => b.genre = g))) := by
      simp [getBooksByGenre, hcon]
    refine ⟨_, hres, ?_, newestFirst_sortNewest _⟩
    intro b
    rw [mem_sortNewest, List.mem_filter]
    simp
  · intro bs2 hbs2 b hb
    have hres : getBooksByGenre db "fantasy" =
        .ok (sortNewest (db.docs.filter (fun b => b.genre = "fantasy"))) := by
      simp [getBooksByGenre, hcon]
    rw [hres] at hbs2
    injection hbs2 with hbs2
    subst hbs2
    rw [mem_sortNewest, List.mem_filter] at hb
    have hg : b.genre = "fantasy" := by simpa using hb.2
    exact ⟨hg, by rw [hg]; decide⟩

theorem genre_exact_case_sensitive_witness :
    db1.connected = true ∧
    (∃ bs, getBooksByGenre db1 "Fantasy" = .ok bs ∧
      (∀ b, b ∈ bs ↔ b ∈ db1.docs ∧ b.genre = "Fantasy") ∧ NewestFirst bs) :=
  ⟨by decide, (genre_exact_case_sensitive db1 "Fantasy" (by decide)).1⟩

/-- C7 counterexample: a lookup with the structurally invalid id `zz` is NOT
rendered 404; the cast error propagates and the handler renders 500, so the
claim that the client observes the absent-result outcome (404) is false. -/
theorem getById_malformed_counterexample :
    (handleGetById dbAbc "zz").status = 500 ∧
    ¬ (handleGetById dbAbc "zz").status = 404 := by decide

/-- C7 amended: a getById lookup with a structurally invalid (non-empty) id
string is rendered 500 (the store client's cast error is wrapped by the
service and caught as an unanticipated failure); only a well-formed id that
matches no record is rendered 404. -/
theorem getById_malformed_is_500 (db : DB) (id : String) :
    (id ≠ "" → validObjectId id = false → (handleGetById db id).status = 500) ∧
    (db.connected = true → validObjectId id = true →
      db.docs.find? (fun b => b.id = id) = none →
      (handleGetById db id).status = 404) := by
  constructor
  · intro hne hvo
    simp [handleGetById, hne, getBookById, hvo]
  · intro hcon hvo hfd
    have hne := validObjectId_ne_empty hvo
    simp [handleGetById, hne, getBookById, hvo, hcon, hfd]

theorem getById_malformed_is_500_witness :
    ("zz" ≠ "") ∧ validObjectId "zz" = false ∧
    (handleGetById db1 "zz").status = 500 ∧
    ((handleGetById db1 "00000000000000000000abcd").status = 404) :=
  ⟨by decide, by decide,
   (getById_malformed_is_500 db1 "zz").1 (by decide) (by decide),
   (getById_malformed_is_500 db1 "00000000000000000000abcd").2 (by decide)
     (by decide) (by decide)⟩

/-- C5 counterexample: the search text `a.c` is handed to `$regex` unescaped,
so its `.` acts as a wildcard: the record titled `abc` is returned although
neither its title nor its author contains `a.c` as a (case-insensitive)
substring — refuting the claim for texts with regex-special characters. -/
theorem search_regex_metachar_counterexample :
    searchBooks dbAbc "a.c" = .ok [bkAbc] ∧
    ¬ ciSubstring "a.c" bkAbc.title ∧ ¬ ciSubstring "a.c" bkAbc.author := by decide

/-- C5 amended: for every search text with no regex metacharacter (in the
modelled `$regex` fragment, no `.`), search returns exactly the stored records
whose title or author contains the text as a case-insensitive substring,
newest-created first; a text containing metacharacters is instead interpreted
as a regular-expression pattern. -/
theorem search_ci_substring_for_literal_text (db : DB) (q : String)
    (hcon : db.connected = true) (hq : '.' ∉ q.toList) :
    ∃ bs, searchBooks db q = .ok bs ∧
      (∀ b, b ∈ bs ↔
        b ∈ db.docs ∧ (ciSubstring q b.title ∨ ciSubstring q b.author)) ∧
      NewestFirst bs := by
  have hres : searchBooks db q = .ok (sortNewest (db.docs.filter
      (fun b => regexTest q b.title || regexTest q b.author))) := by
    simp [searchBooks, hcon]
  refine ⟨_, hres, ?_, newestFirst_sortNewest _⟩
  intro b
  rw [mem_sortNewest, List.mem_filter]
  simp only [Bool.or_eq_true, regexTest_of_no_dot hq]

theorem search_ci_substring_for_literal_text_witness :
    db1.connected = true ∧ ('.' ∉ "hobbit".toList) ∧
    (∃ bs, searchBooks db1 "hobbit" = .ok bs ∧
      (∀ b, b ∈ bs ↔
        b ∈ db1.docs ∧ (ciSubstring "hobbit" b.title ∨ ciSubstring "hobbit" b.author)) ∧
      NewestFirst bs) :=
  ⟨by decide, by decide,
   search_ci_substring_for_literal_text db1 "hobbit" (by decide) (by decide)⟩

/-- C1: a candidate record submitted to create is accepted only if every
required field is present and satisfies its section-3 constraint (title 1-200
characters after trimming, author at least 2, isbn digits only after hyphen
removal with exactly 10 or 13 digits, publishedYear between 1000 and the
current calendar year, genre in the fixed 11-value set, price non-negative,
inStock defaulting to true when absent); otherwise create fails with a
`ValidationError` naming exactly the violated fields and the store is
unchanged. -/
theorem createBook_validates_section3 (y : Int) (db : DB) (now : Nat)
    (i : BookInput) :
    ((∃ b, (createBook y db now i).1 = .ok b) → meetsSection3 y i = true) ∧
    (meetsSection3 y i = false →
      (createBook y db now i).1 = .error (.validation (validateBook y i)) ∧
      validateBook y i ≠ [] ∧ (createBook y db now i).2 = db) ∧
    (∀ f, f ∈ validateBook y i ↔
      (f = "title" ∧ titleOk i = false) ∨ (f = "author" ∧ authorOk i = false) ∨
      (f = "isbn" ∧ isbnOk i = false) ∨
      (f = "publishedYear" ∧ yearOk y i = false) ∨
      (f = "genre" ∧ genreOk i = false) ∨ (f = "price" ∧ priceOk i = false)) ∧
    (∀ b, (createBook y db now i).1 = .ok b → i.inStock = none →
      b.inStock = true) := by
  have hval_of_not : meetsSection3 y i = false → validateBook y i ≠ [] := by
    intro hm hc
    rw [validateBook_eq_nil] at hc
    rw [hc] at hm
    cases hm
  refine ⟨?_, ?_, fun f => mem_validateBook y i f, ?_⟩
  · rintro ⟨b, hb⟩
    cases hm : meetsSection3 y i
    · have hv := hval_of_not hm
      simp [createBook, hv] at hb
    · rfl
  · intro hm
    have hv := hval_of_not hm
    refine ⟨?_, hv, ?_⟩ <;> simp [createBook, hv]
  · intro b hb hstock
    by_cases h1 : validateBook y i = []
    · cases h2 : db.connected
      · simp [createBook, h1, h2] at hb
      · by_cases h3 : db.docs.any
            (fun b => b.isbn = trimS (i.isbn.getD "")) = true
        · simp [createBook, h1, h2, h3] at hb
        · simp only [createBook, h1, h2, h3] at hb
          simp at hb
          rw [← hb]
          simp [buildBook, hstock]
    · simp [createBook, h1] at hb

theorem createBook_validates_section3_witness :
    meetsSection3 2025 inputNoAuthor = false ∧
    (createBook 2025 db0 7 inputNoAuthor).1 =
      .error (.validation (validateBook 2025 inputNoAuthor)) ∧
    (createBook 2025 db0 7 inputNoAuthor).2 = db0 ∧
    ("author" ∈ validateBook 2025 inputNoAuthor ↔
      ("author" = "title" ∧ titleOk inputNoAuthor = false) ∨
      ("author" = "author" ∧ authorOk inputNoAuthor = false) ∨
      ("author" = "isbn" ∧ isbnOk inputNoAuthor = false) ∨
      ("author" = "publishedYear" ∧ yearOk 2025 inputNoAuthor = false) ∨
      ("author" = "genre" ∧ genreOk inputNoAuthor = false) ∨
      ("author" = "price" ∧ priceOk inputNoAuthor = false)) :=
  ⟨by decide,
   ((createBook_validates_section3 2025 db0 7 inputNoAuthor).2.1 (by decide)).1,
   ((createBook_validates_section3 2025 db0 7 inputNoAuthor).2.1 (by decide)).2.2,
   (createBook_validates_section3 2025 db0 7 inputNoAuthor).2.2.1 "author"⟩

/-- C2: creating an otherwise-valid record whose isbn (after trimming) equals
the isbn of an already-stored record fails with the duplicate-key error, is
rendered as 400 with the duplicate-ISBN message, and leaves the store
unchanged. -/
theorem createBook_duplicate_isbn (y : Int) (db : DB) (now : Nat)
    (i : BookInput) (n : String) (d : Book)
    (hval : validateBook y i = []) (hcon : db.connected = true)
    (hisbn : i.isbn = some n) (hd : d ∈ db.docs) (hdup : d.isbn = trimS n) :
    createBook y db now i = (.error .duplicateKey, db) ∧
    (handleCreate y db now i).1.status = 400 ∧
    (handleCreate y db now i).1.message = "A book with this ISBN already exists" ∧
    (handleCreate y db now i).2 = db := by
  have hmeets : meetsSection3 y i = true := (validateBook_eq_nil y i).mp hval
  have hsplit := hmeets
  simp only [meetsSection3, Bool.and_eq_true] at hsplit
  have hany : db.docs.any (fun b => b.isbn = trimS (i.isbn.getD "")) = true := by
    rw [List.any_eq_true]
    exact ⟨d, hd, by simp [hisbn, hdup]⟩
  have hcreate : createBook y db now i = (.error .duplicateKey, db) := by
    simp [createBook, hval, hcon, hany]
  have hfT := titleOk_not_falsy i hsplit.1.1.1.1.1
  have hfA := authorOk_not_falsy i hsplit.1.1.1.1.2
  have hfI := isbnOk_not_falsy i hsplit.1.1.1.2
  refine ⟨hcreate, ?_, ?_, ?_⟩ <;>
    simp [handleCreate, hfT, hfA, hfI, hcreate, svcMsg]

theorem createBook_duplicate_isbn_witness :
    validateBook 2025 dupInput = [] ∧ db1.connected = true ∧
    dupInput.isbn = some "1234567890" ∧ bk1 ∈ db1.docs ∧
    bk1.isbn = trimS "1234567890" ∧
    createBook 2025 db1 7 dupInput = (.error .duplicateKey, db1) ∧
    (handleCreate 2025 db1 7 dupInput).1.status = 400 ∧
    (handleCreate 2025 db1 7 dupInput).1.message =
      "A book with this ISBN already exists" ∧
    (handleCreate 2025 db1 7 dupInput).2 = db1 :=
  ⟨by decide, by decide, by decide, by decide, by decide,
   (createBook_duplicate_isbn 2025 db1 7 dupInput "1234567890" bk1 (by decide)
     (by decide) (by decide) (by decide) (by decide)).1,
   (createBook_duplicate_isbn 2025 db1 7 dupInput "1234567890" bk1 (by decide)
     (by decide) (by decide) (by decide) (by decide)).2.1,
   (createBook_duplicate_isbn 2025 db1 7 dupInput "1234567890" bk1 (by decide)
     (by decide) (by decide) (by decide) (by decide)).2.2.1,
   (createBook_duplicate_isbn 2025 db1 7 dupInput "1234567890" bk1 (by decide)
     (by decide) (by decide) (by decide) (by decide)).2.2.2⟩

/-- C6: for every id in the store's id format, delete removes the record and
returns it as it was just before removal (rendered 200); when no record has
that id it returns the absent-result outcome (rendered 404) and leaves the
store unchanged; hence deleting the same id twice returns 200 then 404, and
the store after the second call equals the store after the first. -/
theorem delete_returns_doc_then_404 (db : DB) (id : String)
    (hcon : db.connected = true) (hvo : validObjectId id = true) :
    (∀ d, db.docs.find? (fun b => b.id = id) = some d →
      handleDelete db id =
        ({ status := 200, success := true, message := "Book deleted successfully",
           data := some (.one d) },
         { db with docs := db.docs.eraseP (fun b => b.id = id) })) ∧
    (db.docs.find? (fun b => b.id = id) = none →
      (handleDelete db id).1.status = 404 ∧ (handleDelete db id).2 = db) ∧
    ((db.docs.map Book.id).Nodup → (handleDelete db id).1.status = 200 →
      (handleDelete (handleDelete db id).2 id).1.status = 404 ∧
      (handleDelete (handleDelete db id).2 id).2 = (handleDelete db id).2) := by
  have hne := validObjectId_ne_empty hvo
  refine ⟨?_, ?_, ?_⟩
  · intro d hd
    simp [handleDelete, hne, deleteBook, hvo, hcon, hd]
  · intro hd
    constructor <;> simp [handleDelete, hne, deleteBook, hvo, hcon, hd]
  · intro hnd h200
    cases hfd : db.docs.find? (fun b => b.id = id) with
    | none =>
      simp [handleDelete, hne, deleteBook, hvo, hcon, hfd] at h200
    | some d =>
      have hdb2 : (handleDelete db id).2 =
          { db with docs := db.docs.eraseP (fun b => b.id = id) } := by
        simp [handleDelete, hne, deleteBook, hvo, hcon, hfd]
      rw [hdb2]
      have hfind2 : (db.docs.eraseP (fun b => b.id = id)).find?
          (fun b => b.id = id) = none := find?_eraseP_eq_none db.docs id hnd
      constructor <;>
        simp [handleDelete, hne, deleteBook, hvo, hcon, hfind2]

theorem delete_returns_doc_then_404_witness :
    db1.connected = true ∧ validObjectId bk1.id = true ∧
    db1.docs.find? (fun b => b.id = bk1.id) = some bk1 ∧
    handleDelete db1 bk1.id =
      ({ status := 200, success := true, message := "Book deleted successfully",
         data := some (.one bk1) },
       { db1 with docs := db1.docs.eraseP (fun b => b.id = bk1.id) }) ∧
    ((handleDelete (handleDelete db1 bk1.id).2 bk1.id).1.status = 404 ∧
      (handleDelete (handleDelete db1 bk1.id).2 bk1.id).2 =
        (handleDelete db1 bk1.id).2) :=
  ⟨by decide, by decide, by decide,
   (delete_returns_doc_then_404 db1 bk1.id (by decide) (by decide)).1 bk1
     (by decide),
   (delete_returns_doc_then_404 db1 bk1.id (by decide) (by decide)).2.2
     (by decide) (by decide)⟩

/-- C4: when an update of an existing record succeeds (status 200 with a
returned document), the returned document — which is also the stored one —
takes exactly the supplied schema fields (trimmed for string paths), has
`updatedAt` refreshed to the update instant, and keeps every other field
unchanged; in particular the client-supplied `_id`/`id`, `createdAt` and
`updatedAt` values in the raw body are stripped, so `id` and `createdAt` are
those of the stored record no matter what the body contained; all other
stored records are untouched. -/
theorem update_applies_only_supplied_fields (y : Int) (db : DB) (now : Nat)
    (id : String) (r : RawUpdate) (d b : Book)
    (hfind : db.docs.find? (fun x => x.id = id) = some d)
    (hok : (handleUpdate y db now id r).1.status = 200)
    (hdata : (handleUpdate y db now id r).1.data = some (.one b)) :
    b.title = (r.title.map trimS).getD d.title ∧
    b.author = (r.author.map trimS).getD d.author ∧
    b.isbn = (r.isbn.map trimS).getD d.isbn ∧
    b.publishedYear = r.publishedYear.getD d.publishedYear ∧
    b.genre = (r.genre.map trimS).getD d.genre ∧
    b.price = r.price.getD d.price ∧
    b.inStock = r.inStock.getD d.inStock ∧
    b.id = d.id ∧ b.createdAt = d.createdAt ∧ b.updatedAt = now ∧
    (handleUpdate y db now id r).2.docs =
      db.docs.map (fun x => if x.id = id then b else x) := by
  by_cases hid : id = ""
  · simp [handleUpdate, hid] at hok
  · by_cases hvo : validObjectId id = true
    · by_cases hvu : validateUpdate y (stripImmutable r) = []
      · cases hcon : db.connected
        · simp [handleUpdate, hid, updateBook, hvo, hvu, hcon] at hok
        · by_cases hconf : isbnConflict db id (stripImmutable r) = true
          · simp [handleUpdate, hid, updateBook, hvo, hvu, hcon, hfind, hconf]
              at hok
          · have hb : b = applyUpdate d now (stripImmutable r) := by
              simp [handleUpdate, hid, updateBook, hvo, hvu, hcon, hfind, hconf]
                at hdata
              exact hdata.symm
            have hdocs : (handleUpdate y db now id r).2.docs =
                db.docs.map (fun x =>
                  if x.id = id then applyUpdate d now (stripImmutable r) else x) := by
              simp [handleUpdate, hid, updateBook, hvo, hvu, hcon, hfind, hconf]
            subst hb
            refine ⟨?_, ?_, ?_, ?_, ?_, ?_, ?_, ?_, ?_, ?_, hdocs⟩ <;>
              simp [applyUpdate, stripImmutable]
      · simp [handleUpdate, hid, updateBook, hvo, hvu] at hok
    · have hvo' : validObjectId id = false := by
        cases hv : validObjectId id
        · rfl
        · exact absurd hv hvo
      simp [handleUpdate, hid, updateBook, hvo'] at hok

theorem update_applies_only_supplied_fields_witness :
    db1.docs.find? (fun x => x.id = bk1.id) = some bk1 ∧
    (handleUpdate 2025 db1 9 bk1.id rawPriceStock).1.status = 200 ∧
    (handleUpdate 2025 db1 9 bk1.id rawPriceStock).1.data =
      some (.one bkUpdated) ∧
    (bkUpdated.title = (rawPriceStock.title.map trimS).getD bk1.title ∧
     bkUpdated.author = (rawPriceStock.author.map trimS).getD bk1.author ∧
     bkUpdated.isbn = (rawPriceStock.isbn.map trimS).getD bk1.isbn ∧
     bkUpdated.publishedYear = rawPriceStock.publishedYear.getD bk1.publishedYear ∧
     bkUpdated.genre = (rawPriceStock.genre.map trimS).getD bk1.genre ∧
     bkUpdated.price = rawPriceStock.price.getD bk1.price ∧
     bkUpdated.inStock = rawPriceStock.inStock.getD bk1.inStock ∧
     bkUpdated.id = bk1.id ∧ bkUpdated.createdAt = bk1.createdAt ∧
     bkUpdated.updatedAt = 9 ∧
     (handleUpdate 2025 db1 9 bk1.id rawPriceStock).2.docs =
       db1.docs.map (fun x => if x.id = bk1.id then bkUpdated else x)) :=
  ⟨by decide, by decide, by decide,
   update_applies_only_supplied_fields 2025 db1 9 bk1.id rawPriceStock bk1
     bkUpdated (by decide) (by decide) (by decide)⟩

/-- C3 counterexample: an unanticipated failure during create (store
unavailable, an otherwise fully valid candidate) is rendered 400 by the
create handler's catch block, not 500 as the claim states. -/
theorem create_unexpected_renders_400_counterexample :
    (handleCreate 2025 dbDown 7 goodInput).1.status = 400 ∧
    ¬ (handleCreate 2025 dbDown 7 goodInput).1.status = 500 := by decide

/-- C3 amended: the handlers map outcomes to statuses as: 201 on successful
create; 200 on successful read/update/delete/search/genre/in-stock; 404 when
the service reports absent-result; 400 on validation errors, duplicate-key
errors and malformed request parameters; unanticipated failures are rendered
500 by the read/delete/search/genre/in-stock handlers, but the create and
update handlers map EVERY caught error, including unanticipated ones, to
400. -/
theorem status_mapping (y : Int) (db : DB) (now : Nat) (i : BookInput)
    (id : String) (r : RawUpdate) (q g : String) :
    (meetsSection3 y i = true → db.connected = true →
      db.docs.any (fun b => b.isbn = trimS (i.isbn.getD "")) = false →
      (handleCreate y db now i).1.status = 201) ∧
    (meetsSection3 y i = false → falsyStr i.title = false →
      falsyStr i.author = false → falsyStr i.isbn = false →
      (handleCreate y db now i).1.status = 400) ∧
    (meetsSection3 y i = true → db.connected = true →
      db.docs.any (fun b => b.isbn = trimS (i.isbn.getD "")) = true →
      (handleCreate y db now i).1.status = 400) ∧
    (meetsSection3 y i = true → db.connected = false →
      (handleCreate y db now i).1.status = 400) ∧
    (db.connected = true → (handleGetAll db).status = 200) ∧
    (db.connected = false → (handleGetAll db).status = 500) ∧
    (db.connected = true → validObjectId id = true →
      ∀ d, db.docs.find? (fun b => b.id = id) = some d →
        (handleGetById db id).status = 200) ∧
    (db.connected = true → validObjectId id = true →
      db.docs.find? (fun b => b.id = id) = none →
      (handleGetById db id).status = 404) ∧
    (db.connected = false → validObjectId id = true →
      (handleGetById db id).status = 500) ∧
    (validObjectId id = true → validateUpdate y (stripImmutable r) = [] →
      db.connected = true → isbnConflict db id (stripImmutable r) = false →
      ∀ d, db.docs.find? (fun b => b.id = id) = some d →
        (handleUpdate y db now id r).1.status = 200) ∧
    (validObjectId id = true → validateUpdate y (stripImmutable r) = [] →
      db.connected = true → db.docs.find? (fun b => b.id = id) = none →
      (handleUpdate y db now id r).1.status = 404) ∧
    (validObjectId id = true → validateUpdate y (stripImmutable r) = [] →
      db.connected = false → (handleUpdate y db now id r).1.status = 400) ∧
    (validObjectId id = true → validateUpdate y (stripImmutable r) ≠ [] →
      (handleUpdate y db now id r).1.status = 400) ∧
    (validObjectId id = true → db.connected = true →
      ∀ d, db.docs.find? (fun b => b.id = id) = some d →
        (handleDelete db id).1.status = 200) ∧
    (validObjectId id = true → db.connected = true →
      db.docs.find? (fun b => b.id = id) = none →
      (handleDelete db id).1.status = 404) ∧
    (validObjectId id = true → db.connected = false →
      (handleDelete db id).1.status = 500) ∧
    (q ≠ "" → db.connected = true → (handleSearch db (some q)).status = 200) ∧
    (q ≠ "" → db.connected = false → (handleSearch db (some q)).status = 500) ∧
    (g ≠ "" → db.connected = true → (handleGenre db g).status = 200) ∧
    (g ≠ "" → db.connected = false → (handleGenre db g).status = 500) ∧
    (db.connected = true → (handleInStock db).status = 200) ∧
    (db.connected = false → (handleInStock db).status = 500) := by
  refine ⟨?_, ?_, ?_, ?_, ?_, ?_, ?_, ?_, ?_, ?_, ?_, ?_, ?_, ?_, ?_, ?_, ?_,
    ?_, ?_, ?_, ?_, ?_⟩
  · intro hm hcon hdup
    have hval : validateBook y i = [] := (validateBook_eq_nil y i).mpr hm
    have hsplit := hm
    simp only [meetsSection3, Bool.and_eq_true] at hsplit
    have hfT := titleOk_not_falsy i hsplit.1.1.1.1.1
    have hfA := authorOk_not_falsy i hsplit.1.1.1.1.2
    have hfI := isbnOk_not_falsy i hsplit.1.1.1.2
    simp [handleCreate, hfT, hfA, hfI, createBook, hval, hcon, hdup]
  · intro hm hfT hfA hfI
    have hval : validateBook y i ≠ [] := by
      intro hc
      rw [validateBook_eq_nil] at hc
      rw [hc] at hm
      cases hm
    simp [handleCreate, hfT, hfA, hfI, createBook, hval]
  · intro hm hcon hdup
    have hval : validateBook y i = [] := (validateBook_eq_nil y i).mpr hm
    have hsplit := hm
    simp only [meetsSection3, Bool.and_eq_true] at hsplit
    have hfT := titleOk_not_falsy i hsplit.1.1.1.1.1
    have hfA := authorOk_not_falsy i hsplit.1.1.1.1.2
    have hfI := isbnOk_not_falsy i hsplit.1.1.1.2
    simp [handleCreate, hfT, hfA, hfI, createBook, hval, hcon, hdup]
  · intro hm hcon
    have hval : validateBook y i = [] := (validateBook_eq_nil y i).mpr hm
    have hsplit := hm
    simp only [meetsSection3, Bool.and_eq_true] at hsplit
    have hfT := titleOk_not_falsy i hsplit.1.1.1.1.1
    have hfA := authorOk_not_falsy i hsplit.1.1.1.1.2
    have hfI := isbnOk_not_falsy i hsplit.1.1.1.2
    simp [handleCreate, hfT, hfA, hfI, createBook, hval, hcon]
  · intro hcon
    simp [handleGetAll, getAllBooks, hcon]
  · intro hcon
    simp [handleGetAll, getAllBooks, hcon]
  · intro hcon hvo d hd
    have hne := validObjectId_ne_empty hvo
    simp [handleGetById, hne, getBookById, hvo, hcon, hd]
  · intro hcon hvo hd
    have hne := validObjectId_ne_empty hvo
    simp [handleGetById, hne, getBookById, hvo, hcon, hd]
  · intro hcon hvo
    have hne := validObjectId_ne_empty hvo
    simp [handleGetById, hne, getBookById, hvo, hcon]
  · intro hvo hvu hcon hconf d hd
    have hne := validObjectId_ne_empty hvo
    simp [handleUpdate, hne, updateBook, hvo, hvu, hcon, hconf, hd]
  · intro hvo hvu hcon hd
    have hne := validObjectId_ne_empty hvo
    simp [handleUpdate, hne, updateBook, hvo, hvu, hcon, hd]
  · intro hvo hvu hcon
    have hne := validObjectId_ne_empty hvo
    simp [handleUpdate, hne, updateBook, hvo, hvu, hcon]
  · intro hvo hvu
    have hne := validObjectId_ne_empty hvo
    simp [handleUpdate, hne, updateBook, hvo, hvu]
  · intro hvo hcon d hd
    have hne := validObjectId_ne_empty hvo
    simp [handleDelete, hne, deleteBook, hvo, hcon, hd]
  · intro hvo hcon hd
    have hne := validObjectId_ne_empty hvo
    simp [handleDelete, hne, deleteBook, hvo, hcon, hd]
  · intro hvo hcon
    have hne := validObjectId_ne_empty hvo
    simp [handleDelete, hne, deleteBook, hvo, hcon]
  · intro hq hcon
    simp [handleSearch, falsyStr, hq, searchBooks, hcon]
  · intro hq hcon
    simp [handleSearch, falsyStr, hq, searchBooks, hcon]
  · intro hg hcon
    simp [handleGenre, hg, getBooksByGenre, hcon]
  · intro hg hcon
    simp [handleGenre, hg, getBooksByGenre, hcon]
  · intro hcon
    simp [handleInStock, getInStockBooks, hcon]
  · intro hcon
    simp [handleInStock, getInStockBooks, hcon]

theorem status_mapping_witness :
    (handleCreate 2025 db0 7 goodInput).1.status = 201 ∧
    (handleCreate 2025 db0 7 inputBadYear).1.status = 400 ∧
    (handleCreate 2025 dbDown 7 goodInput).1.status = 400 ∧
    (handleGetAll dbDown).status = 500 ∧
    (handleDelete dbDown bk1.id).1.status = 500 :=
  ⟨(status_mapping 2025 db0 7 goodInput bk1.id rawPriceStock "x" "x").1
     (by decide) (by decide) (by decide),
   (status_mapping 2025 db0 7 inputBadYear bk1.id rawPriceStock "x" "x").2.1
     (by decide) (by decide) (by decide) (by decide),
   (status_mapping 2025 dbDown 7 goodInput bk1.id rawPriceStock "x" "x").2.2.2.1
     (by decide) (by decide),
   (status_mapping 2025 dbDown 7 goodInput bk1.id rawPriceStock "x" "x").2.2.2.2.2.1
     (by decide),
   (status_mapping 2025 dbDown 7 goodInput bk1.id rawPriceStock "x"
     "x").2.2.2.2.2.2.2.2.2.2.2.2.2.2.2.1 (by decide) (by decide)⟩

end Bookstore
